import Mathlib

/-!
Verification development for the `uniswap_core_active` liquidity-management
bot.  The TypeScript source is embedded shallowly: pure computations become
Lean functions on `Int`/`Nat` (JavaScript `BigInt` division, which truncates
toward zero, is `Int.tdiv`; `Math.floor(a / b)` on integer arguments is
`Int.fdiv`), and the effectful pipeline (`executeFullRebalance`, the block
handler, the provider supervisor, `withRetry`) is embedded as deterministic
functions from an explicit environment of oracle inputs to a result together
with an ordered trace of observable actions (alerts, transactions, pool
reads, sleeps).  External libraries (the Uniswap position math, RPC, email)
appear as oracle fields of the environment, never as stubs of logic that the
repository itself implements.
-/

/- ------------------------------------------------------------------ -/
/- Tick-range computation (src actions, executeFullRebalance)          -/
/- ------------------------------------------------------------------ -/

def MIN_TICK : Int := -887272

def MAX_TICK : Int := 887272

/-- `Math.floor(x / sp) * sp` for an integer `x` and positive integer `sp`.
For the magnitudes that occur here (|x| < 2^21) the JavaScript double
division cannot round across an integer boundary, so the float computation
agrees with exact floor division. -/
def floorToSpacing (x sp : Int) : Int := x.fdiv sp * sp

/-- `Math.ceil(x / sp) * sp`, via `ceil (x/sp) = -floor (-x/sp)`. -/
def ceilToSpacing (x sp : Int) : Int := -((-x).fdiv sp) * sp

/-- `if (tickLower < MIN_TICK) tickLower = Math.ceil(MIN_TICK / tickSpace) * tickSpace`. -/
def clampLower (tl0 sp : Int) : Int :=
  if tl0 < MIN_TICK then ceilToSpacing MIN_TICK sp else tl0

/-- `if (tickUpper > MAX_TICK) tickUpper = Math.floor(MAX_TICK / tickSpace) * tickSpace`. -/
def clampUpper (tu0 sp : Int) : Int :=
  if MAX_TICK < tu0 then floorToSpacing MAX_TICK sp else tu0

/-- The last two fix-ups of the range calculation: widen a collapsed range by
one spacing, and if that pushed the upper end past `MAX_TICK`, move the whole
range down to end at the aligned `MAX_TICK`. -/
def finalFix (tl1 tu1 sp : Int) : Int × Int :=
  let tu2 := if tu1 ≤ tl1 then tl1 + sp else tu1
  if MAX_TICK < tu2 then
    (floorToSpacing MAX_TICK sp - sp, floorToSpacing MAX_TICK sp)
  else
    (tl1, tu2)

/-- The tick-alignment and clamping tail of the dynamic-range calculation in
`executeFullRebalance` (source lines: `let tickLower = Math.floor(...)` down
to the final `tickUpper > MAX_TICK` fix-up).  `t` is `newCurrentTick`, `sp`
is `tickSpacing`, `ld`/`ud` are `lowerTickDiff`/`upperTickDiff`. -/
def computeTickRange (t sp ld ud : Int) : Int × Int :=
  finalFix (clampLower (floorToSpacing (t - ld) sp) sp)
    (clampUpper (floorToSpacing (t + ud) sp) sp) sp

def ATR_SAFETY_FACTOR : Int := 4

/-- `dynamicWidth = Math.floor(volPercent * 100 * ATR_SAFETY_FACTOR)` with
`volPercent = (atr / currentPrice) * 100`.  The positive ratio
`atr / currentPrice` is represented exactly as `volNum / volDen`, so the
floored product is `(volNum * 100 * 100 * ATR_SAFETY_FACTOR).fdiv volDen`. -/
def dynamicWidth (volNum volDen : Int) : Int :=
  (volNum * 100 * 100 * ATR_SAFETY_FACTOR).fdiv volDen

/-- `const WIDTH = Math.max(200, Math.min(dynamicWidth, 4000))`. -/
def clampWidth (dw : Int) : Int := max 200 (min dw 4000)

/-- RSI skew selection, scaled by ten: `rsi > 75 ⇒ 0.3`, `rsi < 25 ⇒ 0.7`,
otherwise `0.5`. -/
def skewTenths (rsi : ℚ) : Int := if 75 < rsi then 3 else if rsi < 25 then 7 else 5

/-- `Math.floor(totalSpan * skew)` with `totalSpan = WIDTH * 2`, as an exact
rational computation.  (The JavaScript double product `totalSpan * 0.3` can
undershoot the exact value by one ulp before flooring; every theorem below
holds for arbitrary nonnegative diffs, so it is insensitive to that ulp.) -/
def upperTickDiff (width skewT : Int) : Int := (2 * width * skewT).fdiv 10

def lowerTickDiff (width skewT : Int) : Int := (2 * width * (10 - skewT)).fdiv 10

/-- The complete dynamic-range calculation of `executeFullRebalance`:
ATR/price ratio (as `volNum / volDen`) and RSI in, aligned and clamped
`(tickLower, tickUpper)` out. -/
def rangePlan (t sp volNum volDen : Int) (rsi : ℚ) : Int × Int :=
  let w := clampWidth (dynamicWidth volNum volDen)
  let st := skewTenths rsi
  computeTickRange t sp (lowerTickDiff w st) (upperTickDiff w st)

/- ------------------------------------------------------------------ -/
/- TWAP (src utils, getPoolTwap)                                       -/
/- ------------------------------------------------------------------ -/

/-- `getPoolTwap`: `observe([interval, 0])` yields tick cumulatives
`(c0, c1)`; the source computes `(c1 - c0) / BigInt(interval)` — BigInt
division, which truncates toward zero — and then applies `Math.floor` to the
resulting `Number`, which is already an integer, so the `Math.floor` is a
no-op.  Hence the result is the truncated (not floored) quotient. -/
def getPoolTwap (c0 c1 : Int) (interval : Int) : Int := (c1 - c0).tdiv interval

/-- The TWAP tick demanded by the specification: `floor((c1 - c0) / n)`,
rounding toward negative infinity also for negative deltas. -/
def specTwapTick (c0 c1 : Int) (interval : Int) : Int := (c1 - c0).fdiv interval

/- ------------------------------------------------------------------ -/
/- Observable actions of the effectful layers                          -/
/- ------------------------------------------------------------------ -/

/-- Observable actions emitted by the embedded effectful code, in program
order: email alerts, position exit / sweep transactions, pool state reads
(numbered by logical read time), swaps, sleeps, balance reads, the mint call
(tagged with the index of the pool read whose snapshot it receives), the
mint transaction itself, state persistence, CSV log rows, the orphan scan,
and the connection supervisor's rotation steps. -/
inductive Act where
  | alertEv (subject : String)
  | exitPos (tokenId : String)
  | poolRead (readIdx : Nat)
  | swapEv
  | sleepEv (ms : Nat)
  | balRead
  | mintCall (readIdx : Nat)
  | mintTx
  | saveStateEv (tokenId : String)
  | logEv
  | sweepEv
  | scanEv
  | destroyWsEv
  | advanceEv (idx : Nat)
  | initProviderEv (idx : Nat)
  | callbackEv
  deriving Repr, DecidableEq

/-- A sampled pool state (`slot0` tick and price together with `liquidity`). -/
structure PoolSnap where
  tick : Int
  sqrtPriceX96 : Nat
  liquidity : Nat
  deriving Repr, DecidableEq

/- ------------------------------------------------------------------ -/
/- mintMaxLiquidity (src actions)                                      -/
/- ------------------------------------------------------------------ -/

/-- Oracle inputs of `mintMaxLiquidity`: the two wallet balances it reads,
which of them is token0 of the pool, the Uniswap position library
(`Position.fromAmounts(...).mintAmounts`, an external collaborator, given the
already-scaled safe amounts), and the token id parsed from the mint receipt. -/
structure MintEnv where
  balUSDC : Nat
  balWETH : Nat
  token0IsWeth : Bool
  mintAmountsOf : Nat → Nat → Nat × Nat
  parsedTokenId : String

structure MintOut where
  tokenId : String
  trace : List Act
  scaled : Nat × Nat
  desired : Nat × Nat
  deriving Repr, DecidableEq

/-- The `amount0Safe`/`amount1Safe` pair of `mintMaxLiquidity`: select each
balance by the pool's token order and scale it by `990n / 1000n` (BigInt
division; the balances are nonnegative, so this is floor division). -/
def mintScaledAmounts (menv : MintEnv) : Nat × Nat :=
  ((if menv.token0IsWeth then menv.balWETH else menv.balUSDC) * 990 / 1000,
   (if menv.token0IsWeth then menv.balUSDC else menv.balWETH) * 990 / 1000)

/-- The `amountDesired` pair computed by the position library
(`Position.fromAmounts(...).mintAmounts`) from the scaled safe amounts. -/
def mintDesired (menv : MintEnv) : Nat × Nat :=
  menv.mintAmountsOf (mintScaledAmounts menv).1 (mintScaledAmounts menv).2

/-- `mintMaxLiquidity`: read both balances, scale each by `990n / 1000n`,
feed the scaled amounts to the position library, and if both resulting
`amountDesired` values are zero return `"0"` without submitting any
transaction; otherwise submit the mint and return the parsed token id. -/
def mintMaxLiquidity (menv : MintEnv) : MintOut :=
  if (mintDesired menv).1 = 0 ∧ (mintDesired menv).2 = 0 then
    { tokenId := "0", trace := [], scaled := mintScaledAmounts menv,
      desired := mintDesired menv }
  else
    { tokenId := menv.parsedTokenId, trace := [Act.mintTx],
      scaled := mintScaledAmounts menv, desired := mintDesired menv }

/- ------------------------------------------------------------------ -/
/- executeFullRebalance (src actions)                                  -/
/- ------------------------------------------------------------------ -/

inductive AbortReason where
  | twapViolation
  | marketData
  | swapFail
  deriving Repr, DecidableEq

inductive RebResult where
  | ok (tokenId : String)
  | err (r : AbortReason)
  deriving Repr, DecidableEq

/-- Oracle inputs of one run of `executeFullRebalance`: the tick cumulatives
returned by `observe([300, 0])`, the spot tick of the pool object handed in
by the caller, whether the concurrent ATR/RSI fetch succeeds, the ATR/price
ratio (exact, as `volNum / volDen`) and RSI it returns, the pool's tick
spacing, the pool state as a function of logical read time (read 0 is the
refresh after the exit, read 1 the refresh after the post-swap sleep),
whether `smartRebalance` decides a swap is needed and whether that swap
succeeds, and the `mintMaxLiquidity` oracle as a function of the pool
snapshot and range it receives. -/
structure RebalanceEnv where
  cumulativeBefore : Int
  cumulativeNow : Int
  currentTick : Int
  analyticsOk : Bool
  volNum : Int
  volDen : Int
  rsi : ℚ
  tickSpacing : Int
  poolAt : Nat → PoolSnap
  swapNeeded : Bool
  swapOk : Bool
  mintEnvAt : PoolSnap → Int → Int → MintEnv

structure RunOut where
  result : RebResult
  trace : List Act
  mintPool : Option PoolSnap
  mintScaled : Option (Nat × Nat)

/-- The mint environment the pipeline hands to `mintMaxLiquidity`: mint-time
balances and position library, determined by the post-sleep pool snapshot
(read 1) and the computed range. -/
def mintEnvFor (env : RebalanceEnv) : MintEnv :=
  env.mintEnvAt (env.poolAt 1)
    (rangePlan (env.poolAt 0).tick env.tickSpacing env.volNum env.volDen env.rsi).1
    (rangePlan (env.poolAt 0).tick env.tickSpacing env.volNum env.volDen env.rsi).2

/-- The part of the pipeline past all abort points: exit of the old position
(when `oldTokenId ≠ "0"`), pool refresh (read 0), the range calculation, the
swap (when one is needed), the 2-second sleep, the balance reads, the second
pool refresh (read 1), `mintMaxLiquidity` against the read-1 snapshot, and
persistence plus the success alert only when the token id is not `"0"`. -/
def rebalanceSuccess (env : RebalanceEnv) (oldTokenId : String) : RunOut :=
  { result := .ok (mintMaxLiquidity (mintEnvFor env)).tokenId,
    trace := (if oldTokenId ≠ "0" then [Act.exitPos oldTokenId] else [])
      ++ [Act.poolRead 0]
      ++ (if env.swapNeeded then [Act.swapEv] else [])
      ++ [Act.sleepEv 2000, Act.balRead, Act.poolRead 1, Act.mintCall 1]
      ++ (mintMaxLiquidity (mintEnvFor env)).trace
      ++ (if (mintMaxLiquidity (mintEnvFor env)).tokenId ≠ "0"
          then [Act.saveStateEv (mintMaxLiquidity (mintEnvFor env)).tokenId,
                Act.alertEv "Rebalance Success"]
          else []),
    mintPool := some (env.poolAt 1),
    mintScaled := some (mintMaxLiquidity (mintEnvFor env)).scaled }

/-- `executeFullRebalance`, in source order: (0) TWAP gate — alert twice and
throw when the spot tick deviates from `getPoolTwap` by more than 200 ticks;
(1) concurrent ATR/RSI fetch — rethrow on failure, emitting nothing; (2)
onward: exit, refresh, range calculation, swap — on swap failure alert and
rethrow — sleep, refresh, mint, persist (`rebalanceSuccess`). -/
def executeFullRebalance (env : RebalanceEnv) (oldTokenId : String) : RunOut :=
  if 200 < (env.currentTick - getPoolTwap env.cumulativeBefore env.cumulativeNow 300).natAbs then
    { result := .err .twapViolation,
      trace := [.alertEv "TWAP Check Failed", .alertEv "TWAP Check Error"],
      mintPool := none, mintScaled := none }
  else if env.analyticsOk = false then
    { result := .err .marketData, trace := [], mintPool := none, mintScaled := none }
  else if env.swapNeeded ∧ env.swapOk = false then
    { result := .err .swapFail,
      trace := (if oldTokenId ≠ "0" then [Act.exitPos oldTokenId] else [])
        ++ [Act.poolRead 0, Act.alertEv "Rebalance Swap Failed"],
      mintPool := none, mintScaled := none }
  else
    rebalanceSuccess env oldTokenId

/- ------------------------------------------------------------------ -/
/- Block event listener (src index, setupEventListeners)               -/
/- ------------------------------------------------------------------ -/

/-- The process-wide mutable flags read and written by the block listener. -/
structure LoopState where
  isSafeMode : Bool
  isProcessing : Bool
  lastRunTime : Int
  deriving Repr, DecidableEq

def MIN_INTERVAL_MS : Int := 3000

/-- One invocation of the `provider.on("block", ...)` handler.  `eff` is the
body `onNewBlock` (abstract: it may mutate the flags, e.g. latch safe mode);
`now` is `Date.now()`.  Returns the state after the handler returns and
whether `onNewBlock` was invoked.  Source order: the safe-mode check, the
`isProcessing` check, `isProcessing = true`, the throttle check — whose early
`return` precedes the `try`/`finally` that would reset `isProcessing` — and
finally the guarded run with `lastRunTime = now` and the `finally` reset. -/
def blockHandler (eff : LoopState → Int → LoopState) (s : LoopState)
    (now blockNumber : Int) : LoopState × Bool :=
  if s.isSafeMode then (s, false)
  else if s.isProcessing then (s, false)
  else
    let s1 : LoopState := { s with isProcessing := true }
    if now - s.lastRunTime < MIN_INTERVAL_MS then (s1, false)
    else
      let s2 : LoopState := { s1 with lastRunTime := now }
      let s3 := eff s2 blockNumber
      ({ s3 with isProcessing := false }, true)

/-- Fold a sequence of `(now, blockNumber)` block events through the handler,
counting how many of them actually invoked `onNewBlock`. -/
def runBlocks (eff : LoopState → Int → LoopState) (s : LoopState) :
    List (Int × Int) → LoopState × Nat
  | [] => (s, 0)
  | (now, bn) :: rest =>
    let step := blockHandler eff s now bn
    let tail := runBlocks eff step.1 rest
    (tail.1, (if step.2 then 1 else 0) + tail.2)

/- ------------------------------------------------------------------ -/
/- onNewBlock, active-position path (src index)                        -/
/- ------------------------------------------------------------------ -/

/-- Oracle inputs of one strategy-path run of `onNewBlock` (an active
position is recorded).  `cbFactorTenths` is `CIRCUIT_BREAKER_DEVIATION_FACTOR`
scaled by ten (the constant itself lives in the configuration; the spec
default 3.0 is 30).  `restActs` abstracts the dynamic-hysteresis tail of the
handler (ATR buffer and conditional rebalance), which no claim touches. -/
structure BlockEnv where
  tokenId : String
  totalEquity : ℚ
  hardStopThreshold : ℚ
  posLiquidity : Nat
  tickLower : Int
  tickUpper : Int
  currentTick : Int
  cbFactorTenths : Int
  orphanFound : String
  restActs : List Act

structure BlockOut where
  actions : List Act
  safeModeSet : Bool
  deriving Repr, DecidableEq

/-- The circuit-breaker trigger condition.  The source computes
`centerTick = (tl + tu) / 2` and `distanceFromCenter = |currentTick - centerTick|`
in doubles (exact at these magnitudes) and compares against
`positionWidth * CIRCUIT_BREAKER_DEVIATION_FACTOR`; multiplying both sides of
`distance > width * (factorTenths / 10)` by 10 gives the equivalent integer
comparison `5 * |2 * currentTick - (tl + tu)| > width * factorTenths`. -/
def circuitBreakerFires (tl tu c factorTenths : Int) : Bool :=
  (tu - tl) * factorTenths < 5 * |2 * c - (tl + tu)|

/-- The active-position path of `onNewBlock`, in source order: the hard
equity stop (alert, exit, sweep, persist `"0"`, latch safe mode), the
externally-closed-position check (alert, orphan scan, conditional reset,
log), the circuit breaker (alert, log, exit, sweep, persist `"0"`, and NO
safe-mode latch), and otherwise the dynamic-hysteresis tail. -/
def onNewBlockStrategy (env : BlockEnv) : BlockOut :=
  if env.totalEquity < env.hardStopThreshold then
    { actions := [.alertEv "HARD STOP LOSS TRIGGERED", .exitPos env.tokenId,
        .sweepEv, .saveStateEv "0"],
      safeModeSet := true }
  else if env.posLiquidity = 0 then
    { actions := [.alertEv "CRITICAL: Position Closed.", .scanEv]
        ++ (if env.orphanFound = "0" then [.saveStateEv "0"] else []) ++ [.logEv],
      safeModeSet := false }
  else if circuitBreakerFires env.tickLower env.tickUpper env.currentTick
      env.cbFactorTenths then
    { actions := [.alertEv "CIRCUIT BREAKER TRIGGERED", .logEv,
        .exitPos env.tokenId, .sweepEv, .saveStateEv "0"],
      safeModeSet := false }
  else
    { actions := env.restActs, safeModeSet := false }

/- ------------------------------------------------------------------ -/
/- withRetry (src utils)                                               -/
/- ------------------------------------------------------------------ -/

def MAX_RETRIES : Nat := 3

/-- The recursive body of `withRetry`.  `op n` is the outcome of the n-th
execution of the operation (0-based); `callIdx` is the index of the execution
this call performs; `retries` is the remaining retry budget.  The result
carries the surfaced outcome, the total number of executions performed, and
the list of back-off sleeps (`1000 * (MAX_RETRIES - retries + 1)` ms, taken
before each retry). -/
def withRetryGo {E A : Type} (op : Nat → Except E A) :
    Nat → Nat → Except E A × Nat × List Nat
  | retries, callIdx =>
    match op callIdx with
    | .ok v => (.ok v, 1, [])
    | .error e =>
      match retries with
      | Nat.succ r =>
        let rest := withRetryGo op r (callIdx + 1)
        (rest.1, rest.2.1 + 1, 1000 * (MAX_RETRIES - Nat.succ r + 1) :: rest.2.2)
      | 0 => (.error e, 1, [])

/-- `withRetry(operation)` with the default budget `retries = MAX_RETRIES`. -/
def withRetry {E A : Type} (op : Nat → Except E A) : Except E A × Nat × List Nat :=
  withRetryGo op MAX_RETRIES 0

/- ------------------------------------------------------------------ -/
/- RobustProvider.triggerNextProvider (src connection)                 -/
/- ------------------------------------------------------------------ -/

/-- State of the connection supervisor relevant to a rotation: how many
endpoints there are, which index is current, and whether the current client
is a WebSocket provider. -/
structure RotEnv where
  n : Nat
  currentIndex : Nat
  isWs : Bool
  deriving Repr, DecidableEq

structure RotOut where
  newIndex : Nat
  trace : List Act
  deriving Repr, DecidableEq

/-- `triggerNextProvider`, in source order: clear the heartbeat timer
(unobservable), sleep 2 s as debounce, advance
`currentIndex = (currentIndex + 1) mod N`, emit the switch alert, destroy the
old client only if it is a WebSocket provider, instantiate the client for the
new endpoint, and invoke the reconnect callback. -/
def triggerNextProvider (env : RotEnv) : RotOut :=
  let next := (env.currentIndex + 1) % env.n
  { newIndex := next,
    trace := [.sleepEv 2000, .advanceEv next, .alertEv "switching"]
      ++ (if env.isWs then [.destroyWsEv] else [])
      ++ [.initProviderEv next, .callbackEv] }

/- ------------------------------------------------------------------ -/
/- Concrete environments used by individual claims                     -/
/- ------------------------------------------------------------------ -/

/-- A pipeline environment at the TWAP rounding boundary: cumulatives
`(0, -301)` over 300 seconds, spot tick 199; analytics made to fail so that a
run past the gate stops at the market-data step, which witnesses that the
gate did NOT fire. -/
def envC1 : RebalanceEnv :=
  { cumulativeBefore := 0, cumulativeNow := -301, currentTick := 199,
    analyticsOk := false, volNum := 1, volDen := 1, rsi := 50,
    tickSpacing := 60, poolAt := fun _ => ⟨0, 0, 0⟩,
    swapNeeded := false, swapOk := true,
    mintEnvAt := fun _ _ _ => ⟨0, 0, false, fun _ _ => (0, 0), "7"⟩ }

/-- A pipeline environment whose TWAP gate passes and whose concurrent
ATR/RSI fetch fails. -/
def envC6 : RebalanceEnv :=
  { cumulativeBefore := 0, cumulativeNow := 0, currentTick := 0,
    analyticsOk := false, volNum := 1, volDen := 100, rsi := 50,
    tickSpacing := 60, poolAt := fun _ => ⟨0, 0, 0⟩,
    swapNeeded := false, swapOk := true,
    mintEnvAt := fun _ _ _ => ⟨0, 0, false, fun _ _ => (0, 0), "7"⟩ }

/-- A fully succeeding pipeline environment: gate passes, analytics succeed,
a swap is needed and succeeds, and the mint parses token id `"7"`.  The pool
snapshot at logical read time `n` has tick `n`, so the two refreshes are
distinguishable. -/
def envC3 : RebalanceEnv :=
  { cumulativeBefore := 0, cumulativeNow := 0, currentTick := 0,
    analyticsOk := true, volNum := 1, volDen := 100, rsi := 50,
    tickSpacing := 60, poolAt := fun n => ⟨Int.ofNat n, 0, 0⟩,
    swapNeeded := true, swapOk := true,
    mintEnvAt := fun _ _ _ => ⟨1000, 2000, false, fun a b => (a, b), "7"⟩ }

/-- A pipeline environment in which the position library reports both
desired mint amounts as zero, so `mintMaxLiquidity` returns `"0"`. -/
def envC7 : RebalanceEnv :=
  { cumulativeBefore := 0, cumulativeNow := 0, currentTick := 0,
    analyticsOk := true, volNum := 1, volDen := 100, rsi := 50,
    tickSpacing := 60, poolAt := fun _ => ⟨0, 0, 0⟩,
    swapNeeded := false, swapOk := true,
    mintEnvAt := fun _ _ _ => ⟨1000, 2000, false, fun _ _ => (0, 0), "9"⟩ }

/-- A mint environment whose position library reports both desired amounts
as zero. -/
def menvC7 : MintEnv := ⟨1000, 2000, false, fun _ _ => (0, 0), "9"⟩

/- ------------------------------------------------------------------ -/
/- Helper lemmas about spacing alignment                               -/
/- ------------------------------------------------------------------ -/

theorem floorToSpacing_le (x : Int) {sp : Int} (h : 0 < sp) :
    floorToSpacing x sp ≤ x := by
  unfold floorToSpacing
  rw [Int.fdiv_eq_ediv _ (le_of_lt h)]
  exact Int.ediv_mul_le x (ne_of_gt h)

theorem lt_floorToSpacing_add (x : Int) {sp : Int} (h : 0 < sp) :
    x < floorToSpacing x sp + sp := by
  unfold floorToSpacing
  have := Int.lt_fdiv_add_one_mul_self x h
  nlinarith [this]

theorem le_ceilToSpacing (x : Int) {sp : Int} (h : 0 < sp) :
    x ≤ ceilToSpacing x sp := by
  unfold ceilToSpacing
  have := floorToSpacing_le (-x) h
  unfold floorToSpacing at this
  linarith

theorem ceilToSpacing_lt (x : Int) {sp : Int} (h : 0 < sp) :
    ceilToSpacing x sp < x + sp := by
  unfold ceilToSpacing
  have := lt_floorToSpacing_add (-x) h
  unfold floorToSpacing at this
  linarith

theorem floorToSpacing_dvd (x sp : Int) : sp ∣ floorToSpacing x sp :=
  dvd_mul_left sp (x.fdiv sp)

theorem ceilToSpacing_dvd (x sp : Int) : sp ∣ ceilToSpacing x sp := by
  unfold ceilToSpacing
  exact dvd_mul_left sp (-((-x).fdiv sp))

theorem clampLower_ge {tl0 : Int} {sp : Int} (h : 0 < sp) :
    MIN_TICK ≤ clampLower tl0 sp := by
  unfold clampLower
  split
  · exact le_ceilToSpacing _ h
  · omega

theorem clampLower_dvd {tl0 sp : Int} (h : sp ∣ tl0) : sp ∣ clampLower tl0 sp := by
  unfold clampLower
  split
  · exact ceilToSpacing_dvd _ _
  · exact h

theorem clampUpper_le {tu0 : Int} {sp : Int} (h : 0 < sp) :
    clampUpper tu0 sp ≤ MAX_TICK := by
  unfold clampUpper
  split
  · exact floorToSpacing_le _ h
  · omega

theorem clampUpper_dvd {tu0 sp : Int} (h : sp ∣ tu0) : sp ∣ clampUpper tu0 sp := by
  unfold clampUpper
  split
  · exact floorToSpacing_dvd _ _
  · exact h

theorem finalFix_valid (tl1 tu1 : Int) {sp : Int} (h1 : 0 < sp)
    (h2 : sp ≤ MAX_TICK) (hl : MIN_TICK ≤ tl1) (hu : tu1 ≤ MAX_TICK)
    (hld : sp ∣ tl1) (hud : sp ∣ tu1) :
    MIN_TICK ≤ (finalFix tl1 tu1 sp).1 ∧
    (finalFix tl1 tu1 sp).1 < (finalFix tl1 tu1 sp).2 ∧
    (finalFix tl1 tu1 sp).2 ≤ MAX_TICK ∧
    sp ∣ (finalFix tl1 tu1 sp).1 ∧
    sp ∣ (finalFix tl1 tu1 sp).2 := by
  have hMle : floorToSpacing MAX_TICK sp ≤ MAX_TICK := floorToSpacing_le _ h1
  have hMgt : MAX_TICK < floorToSpacing MAX_TICK sp + sp :=
    lt_floorToSpacing_add _ h1
  have hMdvd : sp ∣ floorToSpacing MAX_TICK sp := floorToSpacing_dvd _ _
  have hMM : MIN_TICK = -MAX_TICK := by norm_num [MIN_TICK, MAX_TICK]
  unfold finalFix
  by_cases hc : tu1 ≤ tl1 <;> simp only [hc, if_true, if_false]
  · by_cases ho : MAX_TICK < tl1 + sp <;> simp only [ho, if_true, if_false]
    · refine ⟨by omega, by omega, hMle, dvd_sub hMdvd dvd_rfl, hMdvd⟩
    · exact ⟨hl, by omega, by omega, hld, Dvd.dvd.add hld dvd_rfl⟩
  · have hne : ¬ MAX_TICK < tu1 := not_lt.mpr hu
    simp only [hne, if_false]
    exact ⟨hl, by omega, hu, hld, hud⟩

/-- Core invariant of the alignment/clamping tail: for every current tick and
diffs, as long as the spacing is positive and no larger than `MAX_TICK`, the
produced range is ordered, inside the global tick bounds, and aligned. -/
theorem computeTickRange_valid (t sp ld ud : Int) (h1 : 0 < sp)
    (h2 : sp ≤ MAX_TICK) :
    MIN_TICK ≤ (computeTickRange t sp ld ud).1 ∧
    (computeTickRange t sp ld ud).1 < (computeTickRange t sp ld ud).2 ∧
    (computeTickRange t sp ld ud).2 ≤ MAX_TICK ∧
    sp ∣ (computeTickRange t sp ld ud).1 ∧
    sp ∣ (computeTickRange t sp ld ud).2 := by
  unfold computeTickRange
  exact finalFix_valid _ _ h1 h2 (clampLower_ge h1) (clampUpper_le h1)
    (clampLower_dvd (floorToSpacing_dvd _ _))
    (clampUpper_dvd (floorToSpacing_dvd _ _))


/- ------------------------------------------------------------------ -/
/- Claim C1                                                            -/
/- ------------------------------------------------------------------ -/

/-- Claim C1 (code bug at the TWAP gate): with observe cumulatives
`(0, -301)` over 300 seconds the implementation computes the TWAP tick by
BigInt truncation toward zero, giving `-1`, whereas the specified floor gives
`-2`.  At spot tick 199 the code therefore measures a deviation of 200 and
lets the pipeline proceed (it reaches the market-data step), while the
specified floor definition measures 201 > 200 and requires an abort. -/
theorem twap_truncation_diverges_from_floor :
    getPoolTwap 0 (-301) 300 = -1 ∧
    specTwapTick 0 (-301) 300 = -2 ∧
    ¬ 200 < ((199 : Int) - getPoolTwap 0 (-301) 300).natAbs ∧
    200 < ((199 : Int) - specTwapTick 0 (-301) 300).natAbs ∧
    (executeFullRebalance envC1 "0").result = .err .marketData := by
  refine ⟨by decide, by decide, by decide, by decide, rfl⟩

/- ------------------------------------------------------------------ -/
/- Claim C2                                                            -/
/- ------------------------------------------------------------------ -/

/-- Claim C2 (counterexample): at current tick 0, tick spacing 900000,
ATR/price ratio 1/10000 (dynamic width 4, clamped to 200) and RSI 50, the
produced range is `(-900000, 0)`, whose lower bound violates
`MIN_TICK ≤ tickLower` although the tick spacing is positive. -/
theorem rangePlan_huge_spacing_violates_min_tick :
    rangePlan 0 900000 1 10000 50 = (-900000, 0) ∧
    (rangePlan 0 900000 1 10000 50).1 < MIN_TICK ∧
    (0 : Int) < 900000 := by
  refine ⟨by decide, by decide, by decide⟩

/-- Claim C2 (amended): for every current tick in `[MIN_TICK, MAX_TICK]`,
every positive tick spacing that does not exceed `MAX_TICK`, every positive
ATR and price, and every RSI, the produced range satisfies
`MIN_TICK ≤ tickLower < tickUpper ≤ MAX_TICK` and both ends are multiples of
the tick spacing. -/
theorem rangePlan_valid_for_bounded_spacing (t sp volNum volDen : Int)
    (rsi : ℚ) (ht1 : MIN_TICK ≤ t) (ht2 : t ≤ MAX_TICK) (h1 : 0 < sp)
    (h2 : sp ≤ MAX_TICK) (hv1 : 0 < volNum) (hv2 : 0 < volDen) :
    MIN_TICK ≤ (rangePlan t sp volNum volDen rsi).1 ∧
    (rangePlan t sp volNum volDen rsi).1 < (rangePlan t sp volNum volDen rsi).2 ∧
    (rangePlan t sp volNum volDen rsi).2 ≤ MAX_TICK ∧
    sp ∣ (rangePlan t sp volNum volDen rsi).1 ∧
    sp ∣ (rangePlan t sp volNum volDen rsi).2 := by
  unfold rangePlan
  exact computeTickRange_valid _ _ _ _ h1 h2

/-- Witness for the amended claim C2 at tick 100, spacing 60, ATR/price
1/100, RSI 50. -/
theorem rangePlan_valid_for_bounded_spacing_witness :
    MIN_TICK ≤ (rangePlan 100 60 1 100 50).1 ∧
    (rangePlan 100 60 1 100 50).1 < (rangePlan 100 60 1 100 50).2 ∧
    (rangePlan 100 60 1 100 50).2 ≤ MAX_TICK ∧
    (60 : Int) ∣ (rangePlan 100 60 1 100 50).1 ∧
    (60 : Int) ∣ (rangePlan 100 60 1 100 50).2 :=
  rangePlan_valid_for_bounded_spacing 100 60 1 100 50 (by decide) (by decide)
    (by decide) (by decide) (by decide) (by decide)

/- ------------------------------------------------------------------ -/
/- Claim C8                                                            -/
/- ------------------------------------------------------------------ -/

/-- Claim C8: for every positive ATR and price, the half-width used by
`executeFullRebalance` equals `clamp(dynamicWidth, 200, 4000)`: it is never
below 200, never above 4000, and equals the dynamic width whenever that lies
inside the bounds. -/
theorem width_clamp_bounds (volNum volDen : Int) (hv1 : 0 < volNum)
    (hv2 : 0 < volDen) :
    200 ≤ clampWidth (dynamicWidth volNum volDen) ∧
    clampWidth (dynamicWidth volNum volDen) ≤ 4000 ∧
    (200 ≤ dynamicWidth volNum volDen → dynamicWidth volNum volDen ≤ 4000 →
      clampWidth (dynamicWidth volNum volDen) = dynamicWidth volNum volDen) := by
  unfold clampWidth
  refine ⟨le_max_left _ _, ?_, ?_⟩
  · have h := min_le_right (dynamicWidth volNum volDen) 4000
    omega
  · intro hl hr
    rw [min_eq_left hr, max_eq_right hl]

/-- Witness for claim C8 at ATR/price = 1/100 (dynamic width 400, inside the
bounds) and at ATR/price = 1/1 (dynamic width 40000, clamped down to 4000). -/
theorem width_clamp_bounds_witness :
    clampWidth (dynamicWidth 1 100) = dynamicWidth 1 100 ∧
    200 ≤ clampWidth (dynamicWidth 1 100) ∧
    clampWidth (dynamicWidth 1 1) ≤ 4000 := by
  have h1 := width_clamp_bounds 1 100 (by decide) (by decide)
  have h2 := width_clamp_bounds 1 1 (by decide) (by decide)
  exact ⟨h1.2.2 (by decide) (by decide), h1.1, h2.2.1⟩

/- ------------------------------------------------------------------ -/
/- Claim C9                                                            -/
/- ------------------------------------------------------------------ -/

/-- Claim C9 (counterexample): an operation that fails on every attempt is
executed four times — the initial attempt plus `MAX_RETRIES` retries — not
`MAX_RETRIES = 3` times, before the last error (that of the fourth
execution, index 3) surfaces; the back-off sleeps are 1000, 2000 and 3000
milliseconds. -/
theorem withRetry_executes_four_times :
    withRetry (fun n => (Except.error n : Except Nat Unit))
      = (Except.error 3, 4, [1000, 2000, 3000]) := rfl

/-- Claim C9 (amended): `withRetry` with `maxRetries = 3` sleeps
`1000 × attempt` milliseconds after the attempt-th failure (attempts 1..3)
before retrying, and after `maxRetries + 1 = 4` total failures surfaces the
last error, so a permanently failing operation is executed exactly four
times before the error propagates. -/
theorem withRetry_failure_semantics {E A : Type} (op : Nat → Except E A)
    (h : ∀ n, ∃ e, op n = .error e) :
    (withRetry op).1 = op 3 ∧ (withRetry op).2.1 = 4 ∧
    (withRetry op).2.2 = [1000, 2000, 3000] := by
  obtain ⟨e0, h0⟩ := h 0
  obtain ⟨e1, h1⟩ := h 1
  obtain ⟨e2, h2⟩ := h 2
  obtain ⟨e3, h3⟩ := h 3
  simp [withRetry, MAX_RETRIES, withRetryGo, h0, h1, h2, h3]

/-- Witness for the amended claim C9 on a concrete permanently failing
operation. -/
theorem withRetry_failure_semantics_witness :
    (withRetry (fun n => (Except.error (n + 10) : Except Nat Unit))).2.1 = 4 ∧
    (withRetry (fun n => (Except.error (n + 10) : Except Nat Unit))).1
      = Except.error 13 := by
  have h := withRetry_failure_semantics
    (fun n => (Except.error (n + 10) : Except Nat Unit)) (fun n => ⟨n + 10, rfl⟩)
  exact ⟨h.2.1, by rw [h.1]⟩

/- ------------------------------------------------------------------ -/
/- Claim C10                                                           -/
/- ------------------------------------------------------------------ -/

/-- Claim C10 (counterexample): with two endpoints, current index 0 and a
WebSocket client, a rotation's first observable step is the 2-second debounce
sleep and the teardown of the old client happens only as the fourth step,
after the sleep and after the index advance — not first, as claimed. -/
theorem rotation_teardown_after_sleep :
    triggerNextProvider ⟨2, 0, true⟩ =
      { newIndex := 1,
        trace := [.sleepEv 2000, .advanceEv 1, .alertEv "switching",
          .destroyWsEv, .initProviderEv 1, .callbackEv] } ∧
    (triggerNextProvider ⟨2, 0, true⟩).trace.head? = some (.sleepEv 2000) := by
  exact ⟨rfl, rfl⟩

/-- Claim C10 (amended): a rotation performs, in this order: sleep 2 seconds
as debounce, advance `currentIndex` to `(currentIndex + 1) mod N`, emit the
switch alert, tear down the current client (only when it is a WebSocket),
instantiate the client for the new endpoint, and invoke the `onSwitch`
callback. -/
theorem rotation_order_and_index (env : RotEnv) (h : 0 < env.n) :
    (triggerNextProvider env).newIndex = (env.currentIndex + 1) % env.n ∧
    (env.isWs = true → (triggerNextProvider env).trace =
      [.sleepEv 2000, .advanceEv ((env.currentIndex + 1) % env.n),
       .alertEv "switching", .destroyWsEv,
       .initProviderEv ((env.currentIndex + 1) % env.n), .callbackEv]) ∧
    (env.isWs = false → (triggerNextProvider env).trace =
      [.sleepEv 2000, .advanceEv ((env.currentIndex + 1) % env.n),
       .alertEv "switching",
       .initProviderEv ((env.currentIndex + 1) % env.n), .callbackEv]) := by
  refine ⟨rfl, ?_, ?_⟩ <;> intro hw <;> simp [triggerNextProvider, hw]

/-- Witness for the amended claim C10 on a three-endpoint ring with an HTTP
client at index 2 (wrapping around to index 0). -/
theorem rotation_order_and_index_witness :
    (triggerNextProvider ⟨3, 2, false⟩).newIndex = 0 ∧
    (triggerNextProvider ⟨3, 2, false⟩).trace =
      [.sleepEv 2000, .advanceEv 0, .alertEv "switching",
       .initProviderEv 0, .callbackEv] := by
  have h := rotation_order_and_index ⟨3, 2, false⟩ (by decide)
  exact ⟨h.1, h.2.2 rfl⟩

/- ------------------------------------------------------------------ -/
/- Claim C4                                                            -/
/- ------------------------------------------------------------------ -/

/-- Once `isProcessing` is stuck at `true`, every block event is dropped
unchanged and `onNewBlock` is never invoked, whatever the body would do. -/
theorem runBlocks_stuck (eff : LoopState → Int → LoopState) (s : LoopState)
    (hp : s.isProcessing = true) :
    ∀ evs : List (Int × Int), runBlocks eff s evs = (s, 0) := by
  intro evs
  induction evs with
  | nil => rfl
  | cons e rest ih =>
    obtain ⟨now, bn⟩ := e
    have hstep : blockHandler eff s now bn = (s, false) := by
      unfold blockHandler
      by_cases hs : s.isSafeMode <;> simp [hs, hp]
    simp [runBlocks, hstep, ih]

/-- Claim C4: if a block event arrives while safe mode is off, `isProcessing`
is off, and less than `MIN_INTERVAL_MS` has elapsed since `lastRunTime`, the
handler returns with `isProcessing` left `true` without invoking
`onNewBlock`; from that state, every later sequence of block events leaves
the state unchanged (so `isProcessing` stays `true`) and `onNewBlock` is
invoked zero times, for every possible handler body. -/
theorem throttled_block_latches_isProcessing
    (eff : LoopState → Int → LoopState) (s : LoopState) (now bn : Int)
    (h1 : s.isSafeMode = false) (h2 : s.isProcessing = false)
    (h3 : now - s.lastRunTime < MIN_INTERVAL_MS) :
    blockHandler eff s now bn = ({ s with isProcessing := true }, false) ∧
    ∀ evs : List (Int × Int),
      runBlocks eff { s with isProcessing := true } evs
        = ({ s with isProcessing := true }, 0) := by
  constructor
  · unfold blockHandler
    simp [h1, h2, h3]
  · exact runBlocks_stuck eff _ rfl

/-- Witness for claim C4: a throttled event at `now = 1000` with
`lastRunTime = 0`, followed by two more block events, which are both
dropped. -/
theorem throttled_block_latches_isProcessing_witness :
    blockHandler (fun s _ => s) ⟨false, false, 0⟩ 1000 1
      = (⟨false, true, 0⟩, false) ∧
    runBlocks (fun s _ => s) ⟨false, true, 0⟩ [(5000, 2), (9000, 3)]
      = (⟨false, true, 0⟩, 0) := by
  have h := throttled_block_latches_isProcessing (fun s _ => s)
    ⟨false, false, 0⟩ 1000 1 rfl rfl (by decide)
  exact ⟨h.1, h.2 [(5000, 2), (9000, 3)]⟩

/- ------------------------------------------------------------------ -/
/- Claim C5                                                            -/
/- ------------------------------------------------------------------ -/

/-- Claim C5: in the block handler with an active position, when the hard
equity stop does not fire, the position still has liquidity, and the spot
tick deviates from the range center by more than
`positionWidth × CIRCUIT_BREAKER_DEVIATION_FACTOR`, the handler sends the
alert, logs, performs the atomic exit, then the sweep of all WETH to USDC,
then persists token id `"0"`, in that order, and does not latch safe mode. -/
theorem circuit_breaker_exits_without_safe_mode (env : BlockEnv)
    (h1 : ¬ env.totalEquity < env.hardStopThreshold)
    (h2 : env.posLiquidity ≠ 0)
    (h3 : circuitBreakerFires env.tickLower env.tickUpper env.currentTick
      env.cbFactorTenths = true) :
    (onNewBlockStrategy env).actions =
      [.alertEv "CIRCUIT BREAKER TRIGGERED", .logEv, .exitPos env.tokenId,
        .sweepEv, .saveStateEv "0"] ∧
    (onNewBlockStrategy env).safeModeSet = false := by
  unfold onNewBlockStrategy
  simp [h1, h2, h3]

/-- Witness for claim C5: position `[0, 200]` (width 200), spot tick 900,
factor 3.0 — the distance from center (800) exceeds the threshold (600). -/
theorem circuit_breaker_exits_without_safe_mode_witness :
    (onNewBlockStrategy ⟨"77", 1000, 150, 5, 0, 200, 900, 30, "1", []⟩).actions =
      [.alertEv "CIRCUIT BREAKER TRIGGERED", .logEv, .exitPos "77",
        .sweepEv, .saveStateEv "0"] ∧
    (onNewBlockStrategy ⟨"77", 1000, 150, 5, 0, 200, 900, 30, "1", []⟩).safeModeSet
      = false := by
  have h := circuit_breaker_exits_without_safe_mode
    ⟨"77", 1000, 150, 5, 0, 200, 900, 30, "1", []⟩ (by decide) (by decide) (by decide)
  exact h

/- ------------------------------------------------------------------ -/
/- Claim C3                                                            -/
/- ------------------------------------------------------------------ -/

/-- Every `mintMaxLiquidity` call submits either no transaction or exactly
the mint transaction. -/
theorem mintMaxLiquidity_trace_cases (menv : MintEnv) :
    (mintMaxLiquidity menv).trace = [] ∨
    (mintMaxLiquidity menv).trace = [Act.mintTx] := by
  unfold mintMaxLiquidity
  split
  · exact Or.inl rfl
  · exact Or.inr rfl

/-- Claim C3: in every pipeline run that reaches the mint step, the trace
decomposes as `pre ++ [sleep 2000, balance read, pool read 1, mint call] ++
post`: the snapshot handed to `mintMaxLiquidity` is the one sampled at pool
read 1, which happens after the 2-second sync sleep; the swap, when one was
executed, lies strictly before that block (and never after it), and the
pre-swap snapshot (pool read 0) also lies before it — so mint is never
computed against a pool snapshot taken before the swap. -/
theorem mint_snapshot_after_swap_and_sleep (env : RebalanceEnv) (old tid : String)
    (h : (executeFullRebalance env old).result = .ok tid) :
    ∃ pre post,
      (executeFullRebalance env old).trace =
        pre ++ [Act.sleepEv 2000, Act.balRead, Act.poolRead 1, Act.mintCall 1]
          ++ post ∧
      (executeFullRebalance env old).mintPool = some (env.poolAt 1) ∧
      (env.swapNeeded = true → Act.swapEv ∈ pre) ∧
      Act.swapEv ∉ post ∧
      Act.poolRead 0 ∈ pre := by
  unfold executeFullRebalance at h ⊢
  split_ifs at h ⊢ with hc1 hc2 hc3
  all_goals try simp at h
  refine ⟨(if old ≠ "0" then [Act.exitPos old] else []) ++ [Act.poolRead 0]
      ++ (if env.swapNeeded then [Act.swapEv] else []),
    (mintMaxLiquidity (mintEnvFor env)).trace
      ++ (if (mintMaxLiquidity (mintEnvFor env)).tokenId ≠ "0"
          then [Act.saveStateEv (mintMaxLiquidity (mintEnvFor env)).tokenId,
                Act.alertEv "Rebalance Success"] else []), ?_, rfl, ?_, ?_, ?_⟩
  · unfold rebalanceSuccess
    simp [List.append_assoc]
  · intro hs
    simp [hs]
  · rcases mintMaxLiquidity_trace_cases (mintEnvFor env) with hm | hm <;>
      rw [hm] <;> simp <;> split_ifs <;> simp
  · simp

/-- Witness for claim C3 on the fully succeeding environment `envC3`. -/
theorem mint_snapshot_after_swap_and_sleep_witness :
    (executeFullRebalance envC3 "0").mintPool = some (envC3.poolAt 1) ∧
    (executeFullRebalance envC3 "0").result = .ok "7" := by
  obtain ⟨pre, post, -, h2, -, -, -⟩ :=
    mint_snapshot_after_swap_and_sleep envC3 "0" "7" rfl
  exact ⟨h2, rfl⟩

/- ------------------------------------------------------------------ -/
/- Claim C6                                                            -/
/- ------------------------------------------------------------------ -/

/-- Claim C6 (amended): if the TWAP gate passes and the concurrent ATR/RSI
fetch fails, the pipeline aborts with the market-data error and an empty
trace — so no exit, no swap, no mint and no state write has happened, and
also no email alert is sent (the error is rethrown and only logged). -/
theorem market_data_failure_aborts_before_exit (env : RebalanceEnv) (old : String)
    (h1 : ¬ 200 < (env.currentTick -
      getPoolTwap env.cumulativeBefore env.cumulativeNow 300).natAbs)
    (h2 : env.analyticsOk = false) :
    (executeFullRebalance env old).result = .err .marketData ∧
    (executeFullRebalance env old).trace = [] := by
  unfold executeFullRebalance
  simp [h1, h2]

/-- Claim C6 (counterexample): on a concrete environment whose analytics
fetch fails with an active position `"42"`, the pipeline aborts before
`atomicExitPosition` with a completely empty trace — in particular it emits
NO alert, contradicting the claim that the abort comes with an alert. -/
theorem market_data_abort_sends_no_alert :
    (executeFullRebalance envC6 "42").result = .err .marketData ∧
    (executeFullRebalance envC6 "42").trace = [] ∧
    ∀ s, Act.alertEv s ∉ (executeFullRebalance envC6 "42").trace := by
  refine ⟨rfl, rfl, fun s => ?_⟩
  have htr : (executeFullRebalance envC6 "42").trace = [] := rfl
  rw [htr]
  simp

/-- Witness for the amended claim C6. -/
theorem market_data_failure_aborts_before_exit_witness :
    (executeFullRebalance envC6 "0").result = .err .marketData ∧
    (executeFullRebalance envC6 "0").trace = [] :=
  market_data_failure_aborts_before_exit envC6 "0" (by decide) rfl

/- ------------------------------------------------------------------ -/
/- Claim C7                                                            -/
/- ------------------------------------------------------------------ -/

theorem mintMaxLiquidity_scaled (menv : MintEnv) :
    (mintMaxLiquidity menv).scaled = mintScaledAmounts menv := by
  unfold mintMaxLiquidity
  split <;> rfl

theorem mintMaxLiquidity_desired (menv : MintEnv) :
    (mintMaxLiquidity menv).desired = mintDesired menv := by
  unfold mintMaxLiquidity
  split <;> rfl

/-- `saveState` is reached only when the mint step returned a nonzero token
id: a pipeline run whose result is `"0"` never persists anything. -/
theorem save_only_on_nonzero (env : RebalanceEnv) (old : String)
    (h : (executeFullRebalance env old).result = .ok "0") :
    ∀ s, Act.saveStateEv s ∉ (executeFullRebalance env old).trace := by
  intro s
  unfold executeFullRebalance at h ⊢
  split_ifs at h ⊢ with hc1 hc2 hc3
  all_goals try simp at h
  have hm0 : (mintMaxLiquidity (mintEnvFor env)).tokenId = "0" := by
    have hr : (rebalanceSuccess env old).result
        = .ok (mintMaxLiquidity (mintEnvFor env)).tokenId := rfl
    rw [hr] at h
    exact (RebResult.ok.injEq _ _).mp h
  unfold rebalanceSuccess
  rw [hm0]
  rcases mintMaxLiquidity_trace_cases (mintEnvFor env) with hm | hm
  · rw [hm]
    simp
  · rw [hm]
    simp

/-- Claim C7: for every pair of wallet balances, `mintMaxLiquidity` scales
each balance by 0.99 (`* 990 / 1000`) before computing the mint parameters
through the position library, and if both resulting `amountDesired` values
are zero it returns `"0"` without submitting any transaction; in that case
the pipeline never overwrites the persisted state. -/
theorem mint_scales_and_zero_guard :
    (∀ menv : MintEnv,
      (mintMaxLiquidity menv).scaled =
        ((if menv.token0IsWeth then menv.balWETH else menv.balUSDC) * 990 / 1000,
         (if menv.token0IsWeth then menv.balUSDC else menv.balWETH) * 990 / 1000) ∧
      (mintMaxLiquidity menv).desired =
        menv.mintAmountsOf (mintMaxLiquidity menv).scaled.1
          (mintMaxLiquidity menv).scaled.2 ∧
      ((mintMaxLiquidity menv).desired = (0, 0) →
        (mintMaxLiquidity menv).tokenId = "0" ∧
        Act.mintTx ∉ (mintMaxLiquidity menv).trace)) ∧
    ∀ (env : RebalanceEnv) (old : String),
      (executeFullRebalance env old).result = .ok "0" →
      ∀ s, Act.saveStateEv s ∉ (executeFullRebalance env old).trace := by
  constructor
  · intro menv
    refine ⟨mintMaxLiquidity_scaled menv, ?_, ?_⟩
    · rw [mintMaxLiquidity_scaled, mintMaxLiquidity_desired]
      rfl
    · intro hz
      rw [mintMaxLiquidity_desired] at hz
      have hcond : (mintDesired menv).1 = 0 ∧ (mintDesired menv).2 = 0 := by
        rw [hz]
        exact ⟨rfl, rfl⟩
      simp [mintMaxLiquidity, hcond]
  · exact save_only_on_nonzero

/-- Witness for claim C7: balances 1000/2000 scale to 990/1980; a position
library reporting zero desired amounts makes the mint return `"0"` with no
transaction, and the pipeline run persists nothing. -/
theorem mint_scales_and_zero_guard_witness :
    (mintMaxLiquidity menvC7).scaled = (990, 1980) ∧
    (mintMaxLiquidity menvC7).tokenId = "0" ∧
    Act.mintTx ∉ (mintMaxLiquidity menvC7).trace ∧
    (executeFullRebalance envC7 "0").result = .ok "0" ∧
    Act.saveStateEv "5" ∉ (executeFullRebalance envC7 "0").trace := by
  have h := mint_scales_and_zero_guard
  have h1 := (h.1 menvC7).1
  have h3 := (h.1 menvC7).2.2 (by decide)
  exact ⟨h1.trans (by decide), h3.1, h3.2, rfl, h.2 envC7 "0" rfl "5"⟩
